import Mathlib

/-!
Shallow embedding of the client-side real-time orchestration core of the
housing-association discovery dashboard, translated from
src/dashboard/static/js/dashboard.js and src/dashboard/static/js/voice_interface.js.

Modelling conventions:
- JS strings are modelled as List Char (JS String.prototype.replace with a
  string pattern replaces only the first occurrence; JS includes is substring
  containment; JS trim strips surrounding whitespace).
- JS numbers that the code compares (confidence scores) are modelled as
  rationals; timer delays and counters are natural numbers.
- DOM side effects are modelled as the data they append (chat messages,
  activity items, alert calls); fetch calls are modelled as the request
  payload the code would send.
-/

/-! ### String primitives (JS semantics used by voice_interface.js) -/

/-- JS String.prototype.toLowerCase, restricted to the ASCII range that the
wake word and command table use. -/
def lowerStr (s : List Char) : List Char := s.map Char.toLower

/-- JS String.prototype.includes: substring containment. -/
def containsSub (pat : List Char) : List Char → Bool
  | [] => pat.isEmpty
  | c :: rest => pat.isPrefixOf (c :: rest) || containsSub pat rest

/-- JS String.prototype.replace with a string pattern and empty replacement:
removes only the first occurrence of the pattern. -/
def replaceFirst (pat : List Char) : List Char → List Char
  | [] => []
  | c :: rest =>
    if pat.isPrefixOf (c :: rest) then (c :: rest).drop pat.length
    else c :: replaceFirst pat rest

/-- JS String.prototype.trim: strip surrounding whitespace. -/
def trimStr (s : List Char) : List Char :=
  ((s.dropWhile Char.isWhitespace).reverse.dropWhile Char.isWhitespace).reverse

/-! ### VoiceInterface: wake-word gating and command interception
(voice_interface.js lines 233-308) -/

/-- The slice of VoiceInterface.settings that processFinalTranscript reads.
The wake word is stored lowercase (the settings handler lowercases it, and
the default is the lowercase string "hey dashboard"). -/
structure GateSettings where
  continuousListening : Bool
  wakeWord : List Char
deriving DecidableEq

/-- The fixed command table of handleVoiceCommands (voice_interface.js
lines 255-308), one constructor per branch in source order. -/
inductive VoiceCommand
  | stopListeningCmd
  | startListeningCmd
  | clearConversationCmd
  | refreshDashboardCmd
  | showHelpCmd
  | speakSlowerCmd
  | speakFasterCmd
deriving DecidableEq

/-- The literal phrases of the command table (voice_interface.js lines
259-301), in source order. -/
def stopListeningPhrase : List Char := "stop listening".toList

def startListeningPhrase : List Char := "start listening".toList

def clearConversationPhrase : List Char := "clear conversation".toList

def refreshDashboardPhrase : List Char := "refresh dashboard".toList

def showHelpPhrase : List Char := "show help".toList

def speakSlowerPhrase : List Char := "speak slower".toList

def speakFasterPhrase : List Char := "speak faster".toList

/-- VoiceInterface.handleVoiceCommands (voice_interface.js lines 255-308):
lowercases the transcript and tests the fixed command phrases as substrings,
in source order; the first match wins, no match returns none. -/
def handleVoiceCommands (t : List Char) : Option VoiceCommand :=
  let lt := lowerStr t
  if containsSub stopListeningPhrase lt then some .stopListeningCmd
  else if containsSub startListeningPhrase lt then some .startListeningCmd
  else if containsSub clearConversationPhrase lt then some .clearConversationCmd
  else if containsSub refreshDashboardPhrase lt then some .refreshDashboardCmd
  else if containsSub showHelpPhrase lt then some .showHelpCmd
  else if containsSub speakSlowerPhrase lt then some .speakSlowerCmd
  else if containsSub speakFasterPhrase lt then some .speakFasterCmd
  else none

/-- Where a final transcript ends up after processFinalTranscript. -/
inductive VoiceOutcome
  | dropped
  | command (c : VoiceCommand)
  | forwarded (t : List Char)
deriving DecidableEq

/-- The wake-word gate of processFinalTranscript (voice_interface.js lines
236-244): active when continuous listening is on and the wake word is a
nonempty string (JS truthiness); a transcript without the wake word is
discarded, otherwise the transcript is lowercased, the first occurrence of
the wake word is removed, and the result is trimmed. -/
def gateTranscript (st : GateSettings) (t : List Char) : Option (List Char) :=
  if st.continuousListening && !st.wakeWord.isEmpty then
    if containsSub st.wakeWord (lowerStr t) then
      some (trimStr (replaceFirst st.wakeWord (lowerStr t)))
    else none
  else some t

/-- The tail of processFinalTranscript (voice_interface.js lines 246-252):
command interception short-circuits, otherwise the text is forwarded to
sendVoiceMessageToDashboard. -/
def dispatchTranscript (t : List Char) : VoiceOutcome :=
  match handleVoiceCommands t with
  | some c => .command c
  | none => .forwarded t

/-- VoiceInterface.processFinalTranscript (voice_interface.js lines 233-253). -/
def processFinalTranscript (st : GateSettings) (t : List Char) : VoiceOutcome :=
  match gateTranscript st t with
  | none => .dropped
  | some u => dispatchTranscript u

/-- The settings configuration named by claims C5 and C10: continuous
listening on, wake word "hey dashboard". -/
def contSettings : GateSettings := ⟨true, "hey dashboard".toList⟩

/-- The default settings configuration: continuous listening off (the
constructor default in voice_interface.js line 26), so the gate passes every
transcript through unchanged. -/
def offSettings : GateSettings := ⟨false, "hey dashboard".toList⟩

example : processFinalTranscript contSettings ("hey dashboard find housing associations".toList)
    = .forwarded ("find housing associations".toList) := by rfl

example : processFinalTranscript contSettings ("find housing associations".toList)
    = .dropped := by rfl

/-! ### VoiceInterface: the listening/speaking flags
(voice_interface.js lines 71-98 and 366-444)

The two booleans isListening and isSpeaking are the voice state, driven by
browser callbacks. The embedding keeps, in addition, whether a recognition
start or a queued utterance is pending, so that the asynchronous onstart
callbacks can only fire when the corresponding API call was made. -/

structure VState where
  isListening : Bool
  isSpeaking : Bool
  /-- recognition.start() was called and its onstart callback has not fired yet -/
  recPending : Bool
  /-- an utterance was handed to synthesis.speak and its onstart has not fired yet -/
  uttPending : Bool
deriving DecidableEq

/-- The method calls and browser callbacks that touch the two flags. -/
inductive VEvent
  | startListeningCalled
  | stopListeningCalled
  | recStarted
  | recEnded
  | speakCalled
  | uttStarted
  | uttEnded
  | stopSpeakingCalled
deriving DecidableEq

/-- VoiceInterface.stopSpeaking (voice_interface.js lines 438-444): returns
early unless isSpeaking; otherwise synthesis.cancel() discards the queue and
the flag is cleared. -/
def stopSpeakingFn (s : VState) : VState :=
  if s.isSpeaking then { s with isSpeaking := false, uttPending := false } else s

/-- One step of the voice machine. Each branch is the body of the
corresponding handler in voice_interface.js:
startListeningCalled = startListening (414-426, returns early when already
listening, else calls stopSpeaking then recognition.start());
recStarted = recognition.onstart (71-76); recEnded = recognition.onend
(89-98); speakCalled = speak (366-412, synthesis.cancel() ends any playing
utterance and a new utterance is queued - note that speak does NOT stop
recognition); uttStarted = utterance.onstart (386-390); uttEnded =
utterance.onend (392-401); stopSpeakingCalled = stopSpeaking (438-444). -/
def vstep (s : VState) : VEvent → VState
  | .startListeningCalled =>
    if s.isListening then s
    else { stopSpeakingFn s with recPending := true }
  | .stopListeningCalled => s
  | .recStarted =>
    if s.recPending then { s with isListening := true, recPending := false } else s
  | .recEnded => { s with isListening := false, recPending := false }
  | .speakCalled => { s with isSpeaking := false, uttPending := true }
  | .uttStarted =>
    if s.uttPending then { s with isSpeaking := true, uttPending := false } else s
  | .uttEnded => { s with isSpeaking := false }
  | .stopSpeakingCalled => stopSpeakingFn s

/-- The constructor state (voice_interface.js lines 8-9). -/
def vInit : VState := ⟨false, false, false, false⟩

/-- States the voice machine can reach from the constructor state through
any sequence of method calls and browser callbacks. -/
inductive VReachable : VState → Prop
  | init : VReachable vInit
  | step (s : VState) (e : VEvent) : VReachable s → VReachable (vstep s e)

/-! ### ConversationPipeline (dashboard.js)

The data shapes of the understanding response (consumed by sendMessage,
lines 1745-1768) and of the execution request (built by executeIntent,
lines 1991-2002). -/

/-- result.understood_intent. Confidence is modelled as a rational. -/
structure Intent where
  type : String
  summary : String
  confidence : ℚ
deriving DecidableEq

/-- One entry of result.recommended_approach.agents. -/
structure Agent where
  type : String
  description : String
  estimated_time : String
  priority : ℚ
deriving DecidableEq

/-- result.recommended_approach. -/
structure Approach where
  agents : List Agent
  execution_order : List String
deriving DecidableEq

/-- The understanding response consumed by sendMessage. Fields the JS reads
with truthiness or optional chaining are Options. -/
structure UnderstandResult where
  error : Option String
  understood_intent : Option Intent
  recommended_approach : Option Approach
  clarifying_questions : List String
deriving DecidableEq

/-- A chat entry, tagged by the source call that appends it. -/
inductive ChatMsg
  /-- addChatMessage(message, user) for typed or voice input -/
  | user (text : List Char)
  /-- addChatMessage(formatAIResponse(result), ai) in sendMessage line 1760 -/
  | aiResponse
  /-- the clarification prompt of handleClarificationNeeded, carrying the
  questions it includes (slice(0, 3) of the returned list, line 2098) -/
  | aiClarify (qs : List String)
  /-- addChatMessage(..., ai, error) -/
  | aiError (text : String)
  /-- the progress message of executeIntent line 1988 -/
  | aiExecStart
  /-- the canned greeting that clearConversation restores (lines 2035-2050) -/
  | greeting
deriving DecidableEq

/-- The slice of Dashboard state the conversation claims are about:
this.currentIntent, the chat feed, the intent modal visibility, and the
window.alert calls made. -/
structure DashState where
  currentIntent : Option UnderstandResult
  chat : List ChatMsg
  modalOpen : Bool
  alerts : List String
deriving DecidableEq

/-- Dashboard.handleClarificationNeeded (dashboard.js lines 2096-2101):
appends one assistant message listing the first three clarifying questions,
and appends nothing when the list is empty. -/
def handleClarificationNeeded (r : UnderstandResult) (s : DashState) : DashState :=
  if r.clarifying_questions.isEmpty then s
  else { s with chat := s.chat ++ [ChatMsg.aiClarify (r.clarifying_questions.take 3)] }

/-- The response branch of Dashboard.sendMessage (dashboard.js lines
1750-1768): an error response only adds an error chat message; otherwise the
result is stored as this.currentIntent (superseding any previous one), the
formatted response is added to chat, and the intent modal opens exactly when
understood_intent is present with confidence strictly above 0.7, else
handleClarificationNeeded runs. -/
def handleUnderstandResponse (s : DashState) (r : UnderstandResult) : DashState :=
  match r.error with
  | some e => { s with chat := s.chat ++ [ChatMsg.aiError e] }
  | none =>
    let s1 := { s with currentIntent := some r, chat := s.chat ++ [ChatMsg.aiResponse] }
    match r.understood_intent with
    | some i =>
      if (7 : ℚ) / 10 < i.confidence then { s1 with modalOpen := true }
      else handleClarificationNeeded r s1
    | none => handleClarificationNeeded r s1

/-- The user-message half of Dashboard.sendMessage (lines 1714-1727): the
typed text is appended to chat as a user message before the request goes
out. The stored currentIntent is not touched at submit time. -/
def sendMessageSubmit (s : DashState) (text : List Char) : DashState :=
  { s with chat := s.chat ++ [ChatMsg.user text] }

/-- The JSON body that executeIntent posts to /api/ai/execute-intent
(dashboard.js lines 1996-2001). -/
structure ExecRequest where
  intent : Option Intent
  recommendations : List Agent
  execution_order : List String
  confirmations : List (String × String)
deriving DecidableEq

/-- Dashboard.executeIntent (dashboard.js lines 1969-2019). Returns the new
state and the request sent, if any. With no currentIntent it alerts and
returns (lines 1970-1973). Otherwise it hides the modal, adds the progress
chat message, and posts a request built from the CURRENT intent; reading
recommended_approach.agents on a result without a recommended_approach
throws inside the try block and the catch turns it into an error chat
message with no request sent (lines 2015-2018). -/
def executeIntent (s : DashState) (clarifications : List (String × String)) :
    DashState × Option ExecRequest :=
  match s.currentIntent with
  | none => ({ s with alerts := s.alerts ++ ["No intent to execute"] }, none)
  | some r =>
    let s1 := { s with modalOpen := false, chat := s.chat ++ [ChatMsg.aiExecStart] }
    match r.recommended_approach with
    | none =>
      ({ s1 with chat := s1.chat ++ [ChatMsg.aiError "Failed to start analysis. Please try again."] },
        none)
    | some ap =>
      (s1, some ⟨r.understood_intent, ap.agents, ap.execution_order, clarifications⟩)

/-- Dashboard.clearConversation (dashboard.js lines 2031-2053): the chat is
reset to the single canned greeting and currentIntent is nulled. -/
def clearConversation (s : DashState) : DashState :=
  { s with chat := [ChatMsg.greeting], currentIntent := none }

/-- The dashboard side effect of an intercepted voice command, as wired in
handleVoiceCommands (voice_interface.js lines 271-285): only the
clear-conversation entry touches the conversation state; the other entries
act on the voice machine, the settings, or reload data. -/
def commandDashEffect (c : VoiceCommand) (s : DashState) : DashState :=
  match c with
  | .clearConversationCmd => clearConversation s
  | _ => s

/-! ### ActivityLog (dashboard.js lines 2123-2153) -/

/-- One entry of the activity feed: the rendered message and its status
class. -/
structure ActivityItem where
  message : String
  status : String
deriving DecidableEq

/-- The eviction loop at the end of addActivityItem (dashboard.js lines
2150-2152): while the feed holds more than 50 children, remove the last
(oldest) one. -/
def evictOldest (feed : List ActivityItem) : List ActivityItem :=
  if 50 < feed.length then evictOldest feed.dropLast else feed
termination_by feed.length
decreasing_by simp [List.length_dropLast]; omega

/-- Dashboard.addActivityItem (dashboard.js lines 2123-2153): the new item
is inserted before the first child (newest first), then the feed is trimmed
to 50 entries from the old end. -/
def addActivityItem (item : ActivityItem) (feed : List ActivityItem) : List ActivityItem :=
  evictOldest (item :: feed)

/-! ### ConnectionManager (dashboard.js lines 38-88) -/

/-- this.maxReconnectAttempts (dashboard.js line 10). -/
def maxReconnectAttempts : Nat := 5

/-- this.reconnectDelay in milliseconds (dashboard.js line 11). -/
def reconnectDelay : Nat := 1000

/-- The reconnect counter this.reconnectAttempts (dashboard.js line 9). -/
structure ConnState where
  reconnectAttempts : Nat
deriving DecidableEq

/-- The terminal entry appended when the attempt cap is exhausted
(dashboard.js line 86). -/
def reconnectFailedItem : ActivityItem :=
  ⟨"Failed to reconnect - please refresh the page", "status-error"⟩

/-- The entry appended by the onclose handler (dashboard.js line 62). -/
def connClosedItem : ActivityItem :=
  ⟨"Connection lost - attempting to reconnect...", "status-offline"⟩

/-- The entry appended by the onerror handler (dashboard.js line 68). -/
def connErrorItems : List ActivityItem := [⟨"Connection error", "status-error"⟩]

/-- Dashboard.attemptReconnect (dashboard.js lines 77-88). Returns the new
counter state, the scheduled reconnect delay when an attempt is scheduled
(setTimeout of reconnectDelay times the incremented counter), and the
activity items appended: none on the scheduling path (it only logs to the
console), the terminal item once the cap is reached. -/
def attemptReconnect (s : ConnState) : ConnState × Option Nat × List ActivityItem :=
  if s.reconnectAttempts < maxReconnectAttempts then
    (⟨s.reconnectAttempts + 1⟩,
      some (reconnectDelay * (s.reconnectAttempts + 1)), [])
  else
    (s, none, [reconnectFailedItem])

/-- The websocket.onopen handler (dashboard.js lines 45-49): the attempt
counter is reset to zero and exactly one activity item is appended. -/
def connOnOpen (_s : ConnState) : ConnState × List ActivityItem :=
  (⟨0⟩, [⟨"Real-time connection established", "status-online"⟩])

/-- The websocket.onclose handler (dashboard.js lines 60-64): appends one
activity item, then runs attemptReconnect. -/
def connOnClose (s : ConnState) : ConnState × Option Nat × List ActivityItem :=
  let r := attemptReconnect s
  (r.1, r.2.1, connClosedItem :: r.2.2)

/-- The websocket.onmessage handler (dashboard.js lines 51-58): the frame is
parsed inside a try block; a malformed frame (modelled as none) is caught
and only logged to the console - no activity item, no dispatch, no
exception. A parsed frame is handed to the dispatcher, whose appended
activity items are abstracted by the handler argument. Returns the items
appended and whether the frame was dispatched. -/
def onMessage {α : Type} (handler : α → List ActivityItem) :
    Option α → List ActivityItem × Bool
  | none => ([], false)
  | some m => (handler m, true)

/-- Processing of a stream of frames: each frame runs through the onmessage
handler independently, so the try/catch around one frame cannot affect the
dispatch of later frames. -/
def processMessages {α : Type} (handler : α → List ActivityItem)
    (msgs : List (Option α)) : List (List ActivityItem × Bool) :=
  msgs.map (onMessage handler)

/-- A run of consecutive unexpected closes each of whose scheduled reconnect
attempts fails again: every close invokes attemptReconnect on the counter
state left by the previous one. Returns, per close, the scheduled delay (if
any) and the items attemptReconnect appended, plus the final counter
state. -/
def closeEvents : Nat → ConnState → List (Option Nat × List ActivityItem) × ConnState
  | 0, s => ([], s)
  | n + 1, s =>
    let r := attemptReconnect s
    let rest := closeEvents n r.1
    ((r.2.1, r.2.2) :: rest.1, rest.2)

/-! ### ResilientLoader (dashboard.js lines 767-784)

The class body defines loadWithRetry twice (lines 676 and 767); by class
field semantics the later definition is the one in effect, and it is the
one that appends the activity warning on final failure. The task is
modelled by which attempt numbers it would succeed on. -/

/-- The unit of the backoff wait in milliseconds (dashboard.js line 780
waits 1000 * attempt). -/
def retryUnitDelay : Nat := 1000

/-- The activity warning appended after the last failed attempt
(dashboard.js line 777). -/
def retryWarnMsg (name : String) (maxRetries : Nat) : String :=
  name ++ " unavailable after " ++ toString maxRetries ++ " attempts"

/-- Observable trace of one loadWithRetry run: how often the task was
invoked, the waits between attempts, the activity warnings appended, and
the attempt on which the task succeeded, if any. -/
structure RetryTrace where
  calls : Nat
  waits : List Nat
  warnings : List String
  succeededAt : Option Nat
deriving DecidableEq

/-- The body of the for loop of loadWithRetry (dashboard.js lines 768-783),
run over the list of attempt numbers: success returns immediately; a
failure on the attempt equal to maxRetries appends the warning and the loop
ends; an earlier failure waits 1000 * attempt and continues. -/
def retryLoop (task : Nat → Bool) (name : String) (maxRetries : Nat) :
    List Nat → RetryTrace
  | [] => ⟨0, [], [], none⟩
  | a :: rest =>
    if task a then ⟨1, [], [], some a⟩
    else if a = maxRetries then ⟨1, [], [retryWarnMsg name maxRetries], none⟩
    else
      let r := retryLoop task name maxRetries rest
      ⟨r.calls + 1, retryUnitDelay * a :: r.waits, r.warnings, r.succeededAt⟩

/-- Dashboard.loadWithRetry (dashboard.js lines 767-784): the for loop runs
attempt = 1 .. maxRetries. -/
def loadWithRetry (task : Nat → Bool) (name : String) (maxRetries : Nat) : RetryTrace :=
  retryLoop task name maxRetries (List.range' 1 maxRetries)

example : loadWithRetry (fun i => decide (i = 2)) "Statistics" 3
    = ⟨2, [1000], [], some 2⟩ := by rfl

example : loadWithRetry (fun _ => false) "Statistics" 3
    = ⟨3, [1000, 2000], [retryWarnMsg "Statistics" 3], none⟩ := by rfl

/-! ### Helper lemmas -/

/-- The eviction loop keeps exactly the first 50 entries. -/
theorem evictOldest_eq_take (l : List ActivityItem) : evictOldest l = l.take 50 := by
  rw [evictOldest]
  split
  · rename_i h
    rw [evictOldest_eq_take l.dropLast, List.dropLast_eq_take, List.take_take]
    congr 1
    omega
  · rename_i h
    exact (List.take_of_length_le (by omega)).symm
termination_by l.length
decreasing_by simp [List.length_dropLast]; omega

/-- Once the counter has reached the cap, every further close appends only
the terminal item and schedules nothing. -/
theorem closeEvents_exhausted (n : Nat) :
    closeEvents n ⟨maxReconnectAttempts⟩
      = (List.replicate n ((none : Option Nat), [reconnectFailedItem]),
          ⟨maxReconnectAttempts⟩) := by
  induction n with
  | zero => rfl
  | succ n ih =>
    simp [closeEvents, attemptReconnect, ih, List.replicate_succ]

/-- A run of closes splits into a first segment and the rest, the rest
starting from the counter state the first segment left behind. -/
theorem closeEvents_split (m n : Nat) (s : ConnState) :
    closeEvents (m + n) s
      = ((closeEvents m s).1 ++ (closeEvents n (closeEvents m s).2).1,
          (closeEvents n (closeEvents m s).2).2) := by
  induction m generalizing s with
  | zero => simp [closeEvents]
  | succ m ih =>
    rw [Nat.succ_add]
    simp [closeEvents, ih]

/-- The first five closes from a fresh counter schedule the five linearly
delayed attempts and append nothing from attemptReconnect. -/
theorem closeEvents_first : closeEvents 5 ⟨0⟩
    = ([(some 1000, []), (some 2000, []), (some 3000, []), (some 4000, []), (some 5000, [])],
        ⟨maxReconnectAttempts⟩) := by rfl

/-! ### Claim C2 (voice mutual exclusion) -/

/-- C2 counterexample: the claimed invariant that isListening and isSpeaking
are never both true fails. From the initial state: startListening is called,
recognition starts (isListening true), then speak is called while listening
- speak only cancels synthesis, it does not stop recognition - and when the
utterance starts, isSpeaking becomes true while isListening is still true. -/
theorem c2_counterexample : VReachable ⟨true, true, false, false⟩ := by
  have h := VReachable.step _ VEvent.uttStarted
    (VReachable.step _ VEvent.speakCalled
      (VReachable.step _ VEvent.recStarted
        (VReachable.step _ VEvent.startListeningCalled VReachable.init)))
  simpa [vstep, stopSpeakingFn, vInit] using h

/-- C2 amended: one direction of the mutual exclusion holds - startListening
on a non-listening state clears the speaking flag (cancelling any in-flight
utterance) before requesting recognition. The other direction does not:
speak never changes isListening, so recognition stays active across a speak
call and the machine can reach a state with both flags true
(see the counterexample). -/
theorem c2_speak_does_not_stop_recognition :
    (∀ s : VState, s.isListening = false →
        (vstep s .startListeningCalled).isSpeaking = false ∧
        (vstep s .startListeningCalled).recPending = true) ∧
    (∀ s : VState, (vstep s .speakCalled).isListening = s.isListening) := by
  constructor
  · intro s h
    simp only [vstep, h, Bool.false_eq_true, if_false, stopSpeakingFn]
    split <;> simp_all
  · intro s
    rfl

/-- Witness for the amended C2 theorem at a concrete speaking state. -/
theorem c2_witness :
    (vstep ⟨false, true, false, true⟩ .startListeningCalled).isSpeaking = false ∧
    (vstep ⟨false, true, false, true⟩ .startListeningCalled).recPending = true :=
  c2_speak_does_not_stop_recognition.1 ⟨false, true, false, true⟩ rfl

/-! ### Claim C3 (bounded linear reconnect) -/

/-- C3: after an unexpected close with a fresh counter, a cascade of failing
reconnects schedules exactly five attempts, the k-th delayed by k times the
base delay; every later close schedules nothing and appends the terminal
reload item; a successful open resets the counter to zero. The last two
conjuncts state the two branches of attemptReconnect: below the cap the
counter increments and the next attempt is scheduled with linear delay and
no activity item, at the cap nothing is scheduled and the terminal item is
appended. -/
theorem c3_reconnect_linear_bounded :
    (∀ n, (closeEvents (5 + n) ⟨0⟩).1
        = (List.range 5).map
            (fun k => (some (reconnectDelay * (k + 1)), ([] : List ActivityItem)))
          ++ List.replicate n ((none : Option Nat), [reconnectFailedItem])) ∧
    (∀ s, (connOnOpen s).1 = ⟨0⟩) ∧
    (∀ s, s.reconnectAttempts < maxReconnectAttempts →
        attemptReconnect s
          = (⟨s.reconnectAttempts + 1⟩,
              some (reconnectDelay * (s.reconnectAttempts + 1)), [])) ∧
    (∀ s, maxReconnectAttempts ≤ s.reconnectAttempts →
        attemptReconnect s = (s, none, [reconnectFailedItem])) := by
  refine ⟨?_, fun s => rfl, ?_, ?_⟩
  · intro n
    rw [closeEvents_split 5 n, closeEvents_first, closeEvents_exhausted]
    rfl
  · intro s h
    rw [attemptReconnect, if_pos h]
  · intro s h
    rw [attemptReconnect, if_neg (Nat.not_lt.mpr h)]

/-- Witness for C3 at the two concrete counter states 0 and 5. -/
theorem c3_witness :
    attemptReconnect ⟨0⟩ = (⟨1⟩, some (reconnectDelay * 1), []) ∧
    attemptReconnect ⟨5⟩ = (⟨5⟩, none, [reconnectFailedItem]) :=
  ⟨c3_reconnect_linear_bounded.2.2.1 ⟨0⟩ (by decide),
    c3_reconnect_linear_bounded.2.2.2 ⟨5⟩ (by decide)⟩

/-! ### Claim C7 (activity log ring buffer) -/

/-- C7: addActivityItem prepends the new item (the feed is newest-first),
the feed never exceeds 50 entries, and inserting into a full feed of 50
evicts exactly the oldest entry. -/
theorem c7_activity_log_ring_buffer (item : ActivityItem) (feed : List ActivityItem) :
    (addActivityItem item feed).length ≤ 50 ∧
    (addActivityItem item feed).head? = some item ∧
    (feed.length = 50 → addActivityItem item feed = item :: feed.dropLast) := by
  refine ⟨?_, ?_, ?_⟩
  · rw [addActivityItem, evictOldest_eq_take, List.length_take]
    omega
  · rw [addActivityItem, evictOldest_eq_take]
    rw [show (50 : ℕ) = 49 + 1 from rfl, List.take_succ_cons]
    rfl
  · intro h
    rw [addActivityItem, evictOldest_eq_take, List.dropLast_eq_take, h]
    rw [show (50 : ℕ) = 49 + 1 from rfl, List.take_succ_cons]

/-- Witness for C7: inserting a 51st item into a feed of 50 keeps the bound
and drops the oldest entry. -/
theorem c7_witness :
    addActivityItem ⟨"item 51", "status-online"⟩
        (List.replicate 50 ⟨"old", "status-online"⟩)
      = ⟨"item 51", "status-online"⟩
          :: (List.replicate 50 (⟨"old", "status-online"⟩ : ActivityItem)).dropLast ∧
    (List.replicate 50 (⟨"old", "status-online"⟩ : ActivityItem)).length = 50 :=
  ⟨(c7_activity_log_ring_buffer _ _).2.2 (by simp), by simp⟩

/-! ### Claim C9 (one activity item per lifecycle transition) -/

/-- C9 counterexample: a message parse error appends zero activity items,
not exactly one (the catch block only writes to the console), and a
scheduled reconnect attempt below the cap also appends zero. -/
theorem c9_counterexample :
    (onMessage (fun _ : Unit => ([] : List ActivityItem)) none).1.length = 0 ∧
    ¬ (onMessage (fun _ : Unit => ([] : List ActivityItem)) none).1.length = 1 ∧
    (attemptReconnect ⟨0⟩).2.2.length = 0 ∧
    (⟨0⟩ : ConnState).reconnectAttempts < maxReconnectAttempts := by
  refine ⟨rfl, by decide, rfl, by decide⟩

/-- C9 amended: the open, close and error transitions each append exactly
one activity item, and exhausting the reconnect cap appends exactly one
terminal item; but a scheduled reconnect attempt and a message parse error
append none (both only log to the console). A parse failure is swallowed:
the malformed frame yields no dispatch and the remaining frames are
dispatched unchanged. -/
theorem c9_per_transition_items :
    (∀ s, (connOnOpen s).2.length = 1) ∧
    (∀ s, (connOnClose s).2.2 = connClosedItem :: (attemptReconnect s).2.2) ∧
    connErrorItems.length = 1 ∧
    (∀ s, s.reconnectAttempts < maxReconnectAttempts →
        (attemptReconnect s).2.2.length = 0) ∧
    (∀ s, maxReconnectAttempts ≤ s.reconnectAttempts →
        (attemptReconnect s).2.2.length = 1) ∧
    (∀ (α : Type) (handler : α → List ActivityItem) (msgs : List (Option α)),
        onMessage handler none = ([], false) ∧
        processMessages handler (none :: msgs)
          = ([], false) :: processMessages handler msgs) := by
  refine ⟨fun s => rfl, fun s => rfl, rfl, ?_, ?_, fun α handler msgs => ⟨rfl, rfl⟩⟩
  · intro s h
    rw [attemptReconnect, if_pos h]
    rfl
  · intro s h
    rw [attemptReconnect, if_neg (Nat.not_lt.mpr h)]
    rfl

/-- Witness for C9 amended at concrete counter states. -/
theorem c9_witness :
    (attemptReconnect ⟨2⟩).2.2.length = 0 ∧ (attemptReconnect ⟨7⟩).2.2.length = 1 :=
  ⟨c9_per_transition_items.2.2.2.1 ⟨2⟩ (by decide),
    c9_per_transition_items.2.2.2.2.1 ⟨7⟩ (by decide)⟩

/-! ### Claim C1 (stale-intent confirm) -/

/-- A concrete understanding result for an earlier request. -/
def oldResult : UnderstandResult :=
  ⟨none, some ⟨"analysis", "analyze regulatory documents", (8 : ℚ) / 10⟩,
    some ⟨[⟨"analysis", "Analyze documents", "3 minutes", 60⟩], ["analysis"]⟩, []⟩

/-- A concrete understanding result for a superseding request. -/
def newResult : UnderstandResult :=
  ⟨none, some ⟨"discovery", "find housing associations", (9 : ℚ) / 10⟩,
    some ⟨[⟨"discovery", "Find organizations", "2 minutes", 80⟩], ["discovery"]⟩, []⟩

/-- A state whose current intent is the earlier result, with its modal
open. -/
def stateWithOldIntent : DashState := ⟨some oldResult, [ChatMsg.greeting], true, []⟩

/-- The state after a new submit has completed understanding with newResult,
superseding oldResult as the current intent. -/
def stateSuperseded : DashState :=
  handleUnderstandResponse
    (sendMessageSubmit stateWithOldIntent ("find housing associations".toList)) newResult

/-- Evaluation of the superseded state: the new result is stored as the
current intent and the modal opens (confidence 0.9 exceeds 0.7). -/
theorem stateSuperseded_eq :
    stateSuperseded
      = ⟨some newResult,
          [ChatMsg.greeting, ChatMsg.user ("find housing associations".toList),
            ChatMsg.aiResponse], true, []⟩ := by
  norm_num [stateSuperseded, handleUnderstandResponse, sendMessageSubmit, stateWithOldIntent,
    newResult]

/-- C1 counterexample: after a new submit has completed understanding and
superseded the prior intent, executeIntent is NOT a no-op with a
user-visible error - it posts an execution request (built from the new
current intent) and raises no alert. The only rejection executeIntent
performs is the null check on currentIntent. -/
theorem c1_counterexample :
    stateWithOldIntent.currentIntent = some oldResult ∧
    oldResult ≠ newResult ∧
    stateSuperseded.currentIntent = some newResult ∧
    (executeIntent stateSuperseded []).2 ≠ none ∧
    (executeIntent stateSuperseded []).1.alerts = stateSuperseded.alerts := by
  refine ⟨rfl, ?_, ?_, ?_, ?_⟩
  · simp [oldResult, newResult]
  · rw [stateSuperseded_eq]
  · rw [stateSuperseded_eq]
    simp [executeIntent, newResult]
  · rw [stateSuperseded_eq]
    simp [executeIntent, newResult]

/-- C1 amended: confirm is a no-op producing a user-visible error exactly
when there is no current intent; whenever a current intent with a
recommended approach exists - including right after a superseding submit -
confirm posts a request built from that CURRENT intent and its plan, so a
superseded plan itself is never sent, but the confirm is not rejected. -/
theorem c1_confirm_null_check_only :
    (∀ (s : DashState) cl, s.currentIntent = none →
        executeIntent s cl
          = ({ s with alerts := s.alerts ++ ["No intent to execute"] }, none)) ∧
    (∀ (s : DashState) cl r ap, s.currentIntent = some r →
        r.recommended_approach = some ap →
        (executeIntent s cl).2
          = some ⟨r.understood_intent, ap.agents, ap.execution_order, cl⟩) := by
  constructor
  · intro s cl h
    simp [executeIntent, h]
  · intro s cl r ap h hap
    simp [executeIntent, h, hap]

/-- Witness for C1 amended: the rejection at an empty state and the request
sent from the superseded state. -/
theorem c1_witness :
    executeIntent ⟨none, [ChatMsg.greeting], false, []⟩ []
      = (⟨none, [ChatMsg.greeting], false, ["No intent to execute"]⟩, none) ∧
    (executeIntent stateSuperseded []).2
      = some ⟨newResult.understood_intent,
          [⟨"discovery", "Find organizations", "2 minutes", 80⟩], ["discovery"], []⟩ :=
  ⟨c1_confirm_null_check_only.1 _ [] rfl,
    c1_confirm_null_check_only.2 _ [] newResult _ (by rw [stateSuperseded_eq]) rfl⟩

/-! ### Claim C4 (confidence routing) -/

/-- A low-confidence result returning four clarifying questions. -/
def fourQuestionResult : UnderstandResult :=
  ⟨none, some ⟨"discovery", "find something", (1 : ℚ) / 2⟩, none,
    ["q one", "q two", "q three", "q four"]⟩

/-- An idle conversation state. -/
def idleState : DashState := ⟨none, [ChatMsg.greeting], false, []⟩

/-- C4 counterexample: on a low-confidence response returning four
clarifying questions, the modal stays closed but the emitted assistant
message carries only the first three questions - the full returned question
list is never emitted (handleClarificationNeeded slices the list to three;
with an empty question list it emits nothing at all). -/
theorem c4_counterexample :
    (handleUnderstandResponse idleState fourQuestionResult).modalOpen = false ∧
    ChatMsg.aiClarify ["q one", "q two", "q three"]
        ∈ (handleUnderstandResponse idleState fourQuestionResult).chat ∧
    ChatMsg.aiClarify fourQuestionResult.clarifying_questions
        ∉ (handleUnderstandResponse idleState fourQuestionResult).chat := by
  refine ⟨?_, ?_, ?_⟩
  · norm_num [handleUnderstandResponse, fourQuestionResult, idleState,
      handleClarificationNeeded]
  · norm_num [handleUnderstandResponse, fourQuestionResult, idleState,
      handleClarificationNeeded]
  · norm_num [handleUnderstandResponse, fourQuestionResult, idleState,
      handleClarificationNeeded]
    decide

/-- C4 amended: for a non-error response carrying an understood intent, the
confirmation modal opens exactly when confidence is strictly greater than
0.7; otherwise the modal state is unchanged (the pipeline keeps awaiting
free text) and one assistant message with AT MOST THE FIRST THREE returned
clarifying questions is emitted - none at all when the returned list is
empty. -/
theorem c4_confidence_routing (s : DashState) (r : UnderstandResult) (i : Intent)
    (he : r.error = none) (hi : r.understood_intent = some i) :
    ((7 : ℚ) / 10 < i.confidence →
        handleUnderstandResponse s r
          = { s with currentIntent := some r, chat := s.chat ++ [ChatMsg.aiResponse], modalOpen := true }) ∧
    (¬ (7 : ℚ) / 10 < i.confidence →
        (handleUnderstandResponse s r).modalOpen = s.modalOpen ∧
        (r.clarifying_questions = [] →
            (handleUnderstandResponse s r).chat = s.chat ++ [ChatMsg.aiResponse]) ∧
        (r.clarifying_questions ≠ [] →
            (handleUnderstandResponse s r).chat
              = s.chat ++ [ChatMsg.aiResponse,
                  ChatMsg.aiClarify (r.clarifying_questions.take 3)])) := by
  constructor
  · intro hconf
    simp [handleUnderstandResponse, he, hi, hconf]
  · intro hconf
    refine ⟨?_, ?_, ?_⟩
    · simp only [handleUnderstandResponse, he, hi, hconf, if_false, handleClarificationNeeded]
      split <;> rfl
    · intro hq
      simp [handleUnderstandResponse, he, hi, hconf, handleClarificationNeeded, hq]
    · intro hq
      simp [handleUnderstandResponse, he, hi, hconf, handleClarificationNeeded,
        List.isEmpty_iff, hq]

/-! ### Claims C5, C8, C10 (wake-word gating and command interception) -/

/-- With the continuous-listening settings the gate reduces to the
wake-word test on the lowercased transcript. -/
theorem gateTranscript_cont (t : List Char) :
    gateTranscript contSettings t
      = if containsSub contSettings.wakeWord (lowerStr t) then
          some (trimStr (replaceFirst contSettings.wakeWord (lowerStr t)))
        else none := rfl

/-- With continuous listening off the gate passes the transcript through. -/
theorem gateTranscript_off (t : List Char) : gateTranscript offSettings t = some t := rfl

/-- C5: with continuous listening on and wake word "hey dashboard", a final
transcript that does not contain the wake word (case-insensitively) is
dropped - it reaches neither command handling nor the pipeline - and a
transcript that does contain it is processed further with the wake word
stripped first; the two concrete transcripts of the claim behave exactly as
stated. -/
theorem c5_wake_word_gating :
    (∀ t, containsSub contSettings.wakeWord (lowerStr t) = false →
        processFinalTranscript contSettings t = .dropped) ∧
    (∀ t, containsSub contSettings.wakeWord (lowerStr t) = true →
        processFinalTranscript contSettings t
          = dispatchTranscript
              (trimStr (replaceFirst contSettings.wakeWord (lowerStr t)))) ∧
    processFinalTranscript contSettings ("hey dashboard find housing associations".toList)
      = .forwarded ("find housing associations".toList) ∧
    processFinalTranscript contSettings ("find housing associations".toList) = .dropped := by
  refine ⟨?_, ?_, rfl, rfl⟩
  · intro t h
    simp [processFinalTranscript, gateTranscript_cont, h]
  · intro t h
    simp [processFinalTranscript, gateTranscript_cont, h]

/-- Witness for C5 at concrete transcripts with and without the wake word. -/
theorem c5_witness :
    processFinalTranscript contSettings ("open the pod bay doors".toList) = .dropped ∧
    processFinalTranscript contSettings ("hey dashboard show me reports".toList)
      = dispatchTranscript (trimStr (replaceFirst contSettings.wakeWord
          (lowerStr ("hey dashboard show me reports".toList)))) :=
  ⟨c5_wake_word_gating.1 _ rfl, c5_wake_word_gating.2.1 _ rfl⟩

/-- C10: any text that survives the gate and is forwarded to the pipeline
is exactly the whole lowercased transcript with only the first wake-word
occurrence removed and surrounding whitespace trimmed. The concrete
double-occurrence transcript shows that the original casing is lost and
that a second occurrence of the wake word survives in the forwarded
text. -/
theorem c10_forwarded_text_shape :
    (∀ t u, processFinalTranscript contSettings t = .forwarded u →
        u = trimStr (replaceFirst contSettings.wakeWord (lowerStr t))) ∧
    (∀ t, containsSub contSettings.wakeWord (lowerStr t) = true →
        processFinalTranscript contSettings t
          = dispatchTranscript
              (trimStr (replaceFirst contSettings.wakeWord (lowerStr t)))) ∧
    processFinalTranscript contSettings
        ("Hey dashboard hey dashboard find homes".toList)
      = .forwarded ("hey dashboard find homes".toList) ∧
    containsSub contSettings.wakeWord ("hey dashboard find homes".toList) = true := by
  refine ⟨?_, ?_, rfl, rfl⟩
  case refine_2 =>
    intro t h
    simp [processFinalTranscript, gateTranscript_cont, h]
  · intro t u h
    cases hb : containsSub contSettings.wakeWord (lowerStr t) with
    | false => simp [processFinalTranscript, gateTranscript_cont, hb] at h
    | true =>
      simp only [processFinalTranscript, gateTranscript_cont, hb, if_true,
        dispatchTranscript] at h
      cases hv : handleVoiceCommands
          (trimStr (replaceFirst contSettings.wakeWord (lowerStr t))) with
      | some c => rw [hv] at h; cases h
      | none => rw [hv] at h; cases h; rfl

/-- Witness for C10 at the double-occurrence transcript. -/
theorem c10_witness :
    ("hey dashboard find homes".toList : List Char)
      = trimStr (replaceFirst contSettings.wakeWord
          (lowerStr ("Hey dashboard hey dashboard find homes".toList))) :=
  c10_forwarded_text_shape.1 ("Hey dashboard hey dashboard find homes".toList) _
    c10_forwarded_text_shape.2.2.1

/-- A transcript matching both an earlier command table entry and the
clear-conversation entry. -/
def mixedCommand : List Char := "please stop listening and clear conversation".toList

/-- C8 counterexample: a final transcript containing "clear conversation"
but also the earlier table entry "stop listening" is intercepted as the
stop-listening command: it short-circuits, but its side effect is NOT the
chat reset - the dashboard state is untouched. -/
theorem c8_counterexample :
    containsSub clearConversationPhrase (lowerStr mixedCommand) = true ∧
    processFinalTranscript offSettings mixedCommand = .command .stopListeningCmd ∧
    VoiceCommand.stopListeningCmd ≠ VoiceCommand.clearConversationCmd ∧
    (∀ s : DashState, commandDashEffect .stopListeningCmd s = s) :=
  ⟨rfl, rfl, by decide, fun _ => rfl⟩

/-- A transcript containing the clear-conversation phrase always matches
some command table entry, so it is never forwarded. -/
theorem handleVoiceCommands_ne_none (t : List Char)
    (hc : containsSub clearConversationPhrase (lowerStr t) = true) :
    handleVoiceCommands t ≠ none := by
  by_cases h1 : containsSub stopListeningPhrase (lowerStr t) = true
  · simp [handleVoiceCommands, h1]
  · by_cases h2 : containsSub startListeningPhrase (lowerStr t) = true
    · simp [handleVoiceCommands, h1, h2]
    · simp [handleVoiceCommands, h1, h2, hc]

/-- C8 amended: a transcript containing "clear conversation" never reaches
the pipeline (some command always intercepts it); when none of the earlier
table entries ("stop listening", "start listening") also matches, the
intercepted command is clear-conversation, whose side effect resets the
chat to the single canned greeting and nulls the current intent; a
transcript that also matches an earlier entry executes that entry
instead. -/
theorem c8_clear_conversation_short_circuit :
    (∀ t, containsSub clearConversationPhrase (lowerStr t) = true →
        ∀ u, processFinalTranscript offSettings t ≠ .forwarded u) ∧
    (∀ t, containsSub clearConversationPhrase (lowerStr t) = true →
        containsSub stopListeningPhrase (lowerStr t) = false →
        containsSub startListeningPhrase (lowerStr t) = false →
        processFinalTranscript offSettings t = .command .clearConversationCmd) ∧
    (∀ s, commandDashEffect .clearConversationCmd s
        = { s with chat := [ChatMsg.greeting], currentIntent := none }) := by
  refine ⟨?_, ?_, fun s => rfl⟩
  · intro t hc u
    cases hv : handleVoiceCommands t with
    | some c => simp [processFinalTranscript, gateTranscript_off, dispatchTranscript, hv]
    | none => exact absurd hv (handleVoiceCommands_ne_none t hc)
  · intro t hc h1 h2
    have hpass : processFinalTranscript offSettings t = dispatchTranscript t := rfl
    rw [hpass]
    simp [dispatchTranscript, handleVoiceCommands, h1, h2, hc]

/-- Witness for C8 amended at the plain clear-conversation transcript. -/
theorem c8_witness :
    processFinalTranscript offSettings ("clear conversation".toList)
      = .command .clearConversationCmd ∧
    commandDashEffect .clearConversationCmd ⟨none, [], true, []⟩
      = ⟨none, [ChatMsg.greeting], true, []⟩ :=
  ⟨c8_clear_conversation_short_circuit.2.1 _ rfl rfl rfl,
    c8_clear_conversation_short_circuit.2.2 ⟨none, [], true, []⟩⟩

/-! ### Claim C6 (ResilientLoader retry contract) -/

/-- The loop never invokes the task more often than the length of its
attempt list. -/
theorem retryLoop_calls_le (task : Nat → Bool) (name : String) (m : Nat) :
    ∀ l : List Nat, (retryLoop task name m l).calls ≤ l.length := by
  intro l
  induction l with
  | nil => simp [retryLoop]
  | cons a rest ih =>
    by_cases h1 : task a
    · simp [retryLoop, h1]
    · by_cases h2 : a = m
      · subst h2
        simp [retryLoop, h1]
      · simp only [retryLoop, h1, Bool.false_eq_true, if_false, h2, List.length_cons]
        omega

/-- If the task first succeeds on attempt k, the loop over the attempt
numbers starting at a stops there: k calls in total counting from a, one
backoff wait after each failed attempt, no warning. -/
theorem retryLoop_success (task : Nat → Bool) (name : String) (m k : Nat)
    (hsucc : task k = true) (hkm : k ≤ m) :
    ∀ n a, a ≤ k → k < a + n → (∀ i, a ≤ i → i < k → task i = false) →
      retryLoop task name m (List.range' a n)
        = ⟨k - a + 1, (List.range' a (k - a)).map (fun i => retryUnitDelay * i),
            [], some k⟩ := by
  intro n
  induction n with
  | zero =>
    intro a h1 h2 _
    omega
  | succ n ih =>
    intro a h1 h2 hfail
    rw [List.range'_succ]
    by_cases hak : a = k
    · subst hak
      simp [retryLoop, hsucc, Nat.sub_self]
    · have hlt : a < k := lt_of_le_of_ne h1 hak
      have hf : task a = false := hfail a le_rfl hlt
      have ham : ¬ a = m := by omega
      have hrec := ih (a + 1) (by omega) (by omega)
        (fun i hi1 hi2 => hfail i (by omega) hi2)
      simp only [retryLoop, hf, Bool.false_eq_true, if_false, ham, hrec]
      have hka : k - a = (k - (a + 1)) + 1 := by omega
      rw [hka, List.range'_succ]
      simp

/-- If the task fails on every attempt up to m, the loop over the attempt
numbers a .. m makes one call per attempt, waits after every attempt but
the last, and ends with exactly the one warning. -/
theorem retryLoop_all_fail (task : Nat → Bool) (name : String) (m : Nat) :
    ∀ n a, 1 ≤ n → a + n = m + 1 → (∀ i, a ≤ i → i ≤ m → task i = false) →
      retryLoop task name m (List.range' a n)
        = ⟨n, (List.range' a (n - 1)).map (fun i => retryUnitDelay * i),
            [retryWarnMsg name m], none⟩ := by
  intro n
  induction n with
  | zero =>
    intro a h1 _ _
    omega
  | succ n ih =>
    intro a _ ham hfail
    rw [List.range'_succ]
    have hf : task a = false := hfail a le_rfl (by omega)
    by_cases hn0 : n = 0
    · subst hn0
      have haem : a = m := by omega
      subst haem
      simp [retryLoop, hf]
    · have hane : ¬ a = m := by omega
      have hrec := ih (a + 1) (by omega) (by omega)
        (fun i hi1 hi2 => hfail i (by omega) hi2)
      simp only [retryLoop, hf, Bool.false_eq_true, if_false, hane, hrec]
      rw [show n + 1 - 1 = (n - 1) + 1 from by omega, List.range'_succ]
      simp

/-- C6: loadWithRetry invokes the task at most maxRetries times; if the
task succeeds on attempt k it is called exactly k times, the waits are
1000 times 1 .. k-1, and no warning is emitted; if every attempt fails it
is called exactly maxRetries times, the waits are 1000 times
1 .. maxRetries-1, exactly one activity warning naming the task is emitted,
and the failure is not propagated (the trace is returned normally with no
success marker, leaving the caller to decide). -/
theorem c6_load_with_retry (task : Nat → Bool) (name : String) (m : Nat) :
    (loadWithRetry task name m).calls ≤ m ∧
    (∀ k, 1 ≤ k → k ≤ m → task k = true → (∀ i, 1 ≤ i → i < k → task i = false) →
        loadWithRetry task name m
          = ⟨k, (List.range' 1 (k - 1)).map (fun i => retryUnitDelay * i),
              [], some k⟩) ∧
    (1 ≤ m → (∀ i, 1 ≤ i → i ≤ m → task i = false) →
        loadWithRetry task name m
          = ⟨m, (List.range' 1 (m - 1)).map (fun i => retryUnitDelay * i),
              [retryWarnMsg name m], none⟩) := by
  refine ⟨?_, ?_, ?_⟩
  · have h := retryLoop_calls_le task name m (List.range' 1 m)
    simpa [loadWithRetry, List.length_range'] using h
  · intro k h1 h2 hs hf
    have h := retryLoop_success task name m k hs h2 m 1 h1 (by omega) hf
    rw [show k - 1 + 1 = k from by omega] at h
    rw [loadWithRetry, h]
  · intro h1 hf
    have h := retryLoop_all_fail task name m m 1 h1 (by omega) hf
    rw [loadWithRetry, h]

/-- Witness for C6: a task succeeding on attempt 2 of 3, and a task that
always fails over 3 attempts. -/
theorem c6_witness :
    loadWithRetry (fun i => decide (i = 2)) "Statistics" 3
      = ⟨2, (List.range' 1 1).map (fun i => retryUnitDelay * i), [], some 2⟩ ∧
    loadWithRetry (fun _ => false) "Reports" 3
      = ⟨3, (List.range' 1 2).map (fun i => retryUnitDelay * i),
          [retryWarnMsg "Reports" 3], none⟩ :=
  ⟨(c6_load_with_retry (fun i => decide (i = 2)) "Statistics" 3).2.1 2 (by decide)
      (by decide) (by decide)
      (fun i hi1 hi2 => by
        have : i = 1 := by omega
        subst this
        rfl),
    (c6_load_with_retry (fun _ => false) "Reports" 3).2.2 (by decide)
      (fun i _ _ => rfl)⟩

/-- A result with confidence 0.71 and one clarifying question. -/
def result071 : UnderstandResult :=
  ⟨none, some ⟨"discovery", "find housing associations", (71 : ℚ) / 100⟩,
    some ⟨[⟨"discovery", "Find organizations", "2 minutes", 80⟩], ["discovery"]⟩,
    ["which region"]⟩

/-- The same result with confidence exactly 0.70. -/
def result070 : UnderstandResult :=
  ⟨none, some ⟨"discovery", "find housing associations", (70 : ℚ) / 100⟩,
    some ⟨[⟨"discovery", "Find organizations", "2 minutes", 80⟩], ["discovery"]⟩,
    ["which region"]⟩

/-- Witness for C4 amended: confidence 0.71 opens the modal, confidence
exactly 0.70 does not and the question is emitted. -/
theorem c4_witness :
    (handleUnderstandResponse idleState result071).modalOpen = true ∧
    (handleUnderstandResponse idleState result070).modalOpen = false ∧
    (handleUnderstandResponse idleState result070).chat
      = idleState.chat ++ [ChatMsg.aiResponse, ChatMsg.aiClarify ["which region"]] := by
  refine ⟨?_, ?_, ?_⟩
  · rw [(c4_confidence_routing idleState result071 _ rfl rfl).1 (by norm_num)]
  · exact ((c4_confidence_routing idleState result070 _ rfl rfl).2 (by norm_num)).1
  · exact ((c4_confidence_routing idleState result070 _ rfl rfl).2 (by norm_num)).2.2
      (by decide)

